import Mathlib

/-!
Shallow embedding of `src/SnipsPlayer.ts` (the `SnipsPlayer` adapter class of
the snips-action-music repository).

The adapter's mutable fields (`host`, `port`, `volume`, `volumeSilence`,
`enableRandom`, `isReady`) are modelled by the record `PlayerState`.

Every call into the underlying MPD client (`this.player.*`) is modelled as an
emitted `Cmd` together with a result drawn from a mock environment `MpdMock`.
Promise chains (`.then` / `.catch` / `throw new Error(...)`) are modelled by
the monad `M α := MpdMock → List Cmd × Except String α`: `Mbind` runs the
continuation only on success (commands already issued stay issued), `Mcatch`
runs the handler on failure, and `Mthrow e` rejects with the error message.

JavaScript truthiness tests (`if (options.host)`, `song ? song : ''`,
`!res.length`) are translated explicitly: a string is truthy iff non-empty, a
number iff non-zero, an optional value iff present and truthy.
-/

namespace SnipsActionMusic

/-- One call to the underlying MPD client library, as issued by the adapter. -/
inductive Cmd where
  | previous
  | next
  | play
  | pause
  | stop
  | clear
  | status
  | currentSong
  | setVolume (v : Int)
  | search (criteria : List (String × String))
  | searchAdd (criteria : List (String × String))
  | listPlaylist (file : String)
  | load (file : String)
deriving DecidableEq, Repr

/-- Result object of `player.status.status()`; the adapter only reads `state`. -/
structure MpdStatus where
  state : String
deriving DecidableEq, Repr

/-- Song metadata returned by `player.status.currentSong()`; opaque to the
adapter, modelled as a list of tag/value pairs. -/
abbrev SongInfo := List (String × String)

/-- Mock responses of the underlying MPD client: the result each remote call
resolves or rejects with. Errors are identified by their message string. -/
structure MpdMock where
  statusRes : Except String MpdStatus
  currentSongRes : Except String SongInfo
  searchRes : List (String × String) → Except String (List SongInfo)
  searchAddRes : List (String × String) → Except String Unit
  clearRes : Except String Unit
  listPlaylistRes : String → Except String (List String)
  loadRes : String → Except String Unit

/-- Promise-chain monad: given the mock environment, a computation yields the
list of MPD commands it issued and either a value or an error message. -/
def M (α : Type) : Type := MpdMock → List Cmd × Except String α

def Mpure {α : Type} (a : α) : M α := fun _ => ([], Except.ok a)

/-- `Mbind x f` models `x.then(f)`: on rejection of `x` the continuation never
runs, but the commands `x` already issued remain issued. -/
def Mbind {α β : Type} (x : M α) (f : α → M β) : M β := fun m =>
  match x m with
  | (t, Except.error e) => (t, Except.error e)
  | (t, Except.ok a) =>
      match f a m with
      | (t2, r2) => (t ++ t2, r2)

instance : Monad M where
  pure := Mpure
  bind := Mbind

/-- `Mthrow e` models `throw new Error(e)` inside a promise chain. -/
def Mthrow {α : Type} (e : String) : M α := fun _ => ([], Except.error e)

/-- `Mcatch x h` models `x.catch(h)`: the handler runs only on rejection. -/
def Mcatch {α : Type} (x : M α) (h : String → M α) : M α := fun m =>
  match x m with
  | (t, Except.ok a) => (t, Except.ok a)
  | (t, Except.error e) =>
      match h e m with
      | (t2, r2) => (t ++ t2, r2)

/-! Primitive delegations to the MPD client (`this.player.*`); each issues one
command and returns the mock's response for it. -/

def mpcPrevious : M Unit := fun _ => ([Cmd.previous], Except.ok ())

def mpcNext : M Unit := fun _ => ([Cmd.next], Except.ok ())

def mpcPlay : M Unit := fun _ => ([Cmd.play], Except.ok ())

def mpcPause : M Unit := fun _ => ([Cmd.pause], Except.ok ())

def mpcStop : M Unit := fun _ => ([Cmd.stop], Except.ok ())

def mpcClear : M Unit := fun m => ([Cmd.clear], m.clearRes)

def mpcStatus : M MpdStatus := fun m => ([Cmd.status], m.statusRes)

def mpcCurrentSong : M SongInfo := fun m => ([Cmd.currentSong], m.currentSongRes)

def mpcSearch (criteria : List (String × String)) : M (List SongInfo) :=
  fun m => ([Cmd.search criteria], m.searchRes criteria)

def mpcSearchAdd (criteria : List (String × String)) : M Unit :=
  fun m => ([Cmd.searchAdd criteria], m.searchAddRes criteria)

def mpcListPlaylist (file : String) : M (List String) :=
  fun m => ([Cmd.listPlaylist file], m.listPlaylistRes file)

def mpcLoad (file : String) : M Unit :=
  fun m => ([Cmd.load file], m.loadRes file)

/-! The adapter's stored fields and construction. -/

/-- Stored fields of a `SnipsPlayer` instance (the `Dialog` and `MPC` handles
carry no adapter state and are omitted). -/
structure PlayerState where
  host : String
  port : Int
  volume : Int
  volumeSilence : Int
  enableRandom : Bool
  isReady : Bool
deriving DecidableEq, Repr

/-- Field initializers of the class body (lines 21-30 of the source). -/
def defaultState : PlayerState :=
  { host := "localhost"
    port := 6600
    volume := 80
    volumeSilence := 20
    enableRandom := true
    isReady := false }

/-- `SnipsPlayerInitOptions`: the four optional construction overrides. -/
structure SnipsPlayerInitOptions where
  host : Option String
  port : Option Int
  defaultVolume : Option Int
  enableRandom : Option Bool
deriving DecidableEq, Repr

/-- Constructor (lines 32-53): each override is applied under a JavaScript
truthiness test (`if (options.host)` and so on): an absent field, the empty
string, zero, or `false` leaves the field initializer in place. -/
def mkSnipsPlayer (options : SnipsPlayerInitOptions) : PlayerState :=
  let s0 := defaultState
  let s1 := match options.host with
    | some h => if h = "" then s0 else { s0 with host := h }
    | none => s0
  let s2 := match options.port with
    | some p => if p = 0 then s1 else { s1 with port := p }
    | none => s1
  let s3 := match options.defaultVolume with
    | some v => if v = 0 then s2 else { s2 with volume := v }
    | none => s2
  match options.enableRandom with
  | some b => if b then { s3 with enableRandom := b } else s3
  | none => s3

/-! Lifecycle event handlers (`__startMonitoring`, `__init`). -/

/-- `__setVolume(volume)` (line 140): one `setVolume` command. -/
def __setVolume (v : Int) : List Cmd := [Cmd.setVolume v]

/-- `saveVolume(volume)` (lines 149-152): store the level, then apply the
freshly stored `this.volume`. -/
def saveVolume (s : PlayerState) (v : Int) : PlayerState × List Cmd :=
  let s' := { s with volume := v }
  (s', __setVolume s'.volume)

/-- `setVolumeToSilence()` (lines 157-159). -/
def setVolumeToSilence (s : PlayerState) : PlayerState × List Cmd :=
  (s, __setVolume s.volumeSilence)

/-- `setVolumeToNormal()` (lines 164-166). -/
def setVolumeToNormal (s : PlayerState) : PlayerState × List Cmd :=
  (s, __setVolume s.volume)

/-- `__init()` (lines 77-82), run by the `ready` listener: set readiness,
apply the normal volume, issue a stop. -/
def __init (s : PlayerState) : PlayerState × List Cmd :=
  let s1 := { s with isReady := true }
  let (s2, t1) := setVolumeToNormal s1
  (s2, t1 ++ [Cmd.stop])

/-- `socket-error` listener (lines 63-66): clear readiness, then throw; the
second component is the message of the thrown error. -/
def socketErrorHandler (s : PlayerState) : PlayerState × String :=
  ({ s with isReady := false }, "mpdConnectionFaild")

/-- `socket-end` listener (lines 68-71). -/
def socketEndHandler (s : PlayerState) : PlayerState × String :=
  ({ s with isReady := false }, "mpdConnectionEnd")

/-! Status queries. -/

def __getStatus : M MpdStatus := mpcStatus

def __getCurrentSong : M SongInfo := mpcCurrentSong

/-- `getPlayingInfo()` (lines 112-121): query status; when the state is
`stop` or `pause`, reject with `nothingPlaying`, otherwise fetch the current
song. -/
def getPlayingInfo : M SongInfo := do
  let res ← __getStatus
  if res.state == "stop" || res.state == "pause" then
    Mthrow "nothingPlaying"
  else
    __getCurrentSong

/-! Playlist by criteria. -/

/-- `x ? x : ''` applied to a possibly-absent string argument. -/
def jsStrOrEmpty (x : Option String) : String :=
  match x with
  | some s => if s = "" then "" else s
  | none => ""

/-- The search-criteria list built identically at lines 176-180 and 190-194. -/
def searchCriteria (song album artist : Option String) : List (String × String) :=
  [("Title", jsStrOrEmpty song),
   ("Album", jsStrOrEmpty album),
   ("Artist", jsStrOrEmpty artist)]

/-- `__checkExistance(song, album, artist)` (lines 175-181). -/
def __checkExistance (song album artist : Option String) : M (List SongInfo) :=
  mpcSearch (searchCriteria song album artist)

/-- `__createPlayList(song, album, artist)` (lines 189-195). -/
def __createPlayList (song album artist : Option String) : M Unit :=
  mpcSearchAdd (searchCriteria song album artist)

/-- `createPlayListIfPossible(song, album, artist)` (lines 206-218): search;
on an empty result throw `notFound`, otherwise clear, then search-and-add. -/
def createPlayListIfPossible (song album artist : Option String) : M Unit := do
  let res ← __checkExistance song album artist
  let _ ← (if res.length == 0 then Mthrow "notFound" else mpcClear)
  __createPlayList song album artist

/-! Playlist by name. -/

/-- `__checkExistancePlaylist(playlist)` (lines 224-226). -/
def __checkExistancePlaylist (playlist : String) : M (List String) :=
  mpcListPlaylist (playlist.toLower ++ ".m3u")

/-- `__loadSongFromSavedPlaylist(playlist)` (lines 232-234). -/
def __loadSongFromSavedPlaylist (playlist : String) : M Unit :=
  mpcLoad (playlist.toLower ++ ".m3u")

/-- `loadPlaylistIfPossible(playlist)` (lines 243-260): list the playlist
file; an empty listing throws `notFound`, otherwise clear; any rejection up
to that point is caught and replaced by `notFound`; finally load the file. -/
def loadPlaylistIfPossible (playlist : String) : M Unit := do
  let _ ← Mcatch
    (do
      let res ← __checkExistancePlaylist playlist
      if res.length == 0 then Mthrow "notFound" else mpcClear)
    (fun _ => Mthrow "notFound")
  __loadSongFromSavedPlaylist playlist

/-! A step function over every public operation and lifecycle event, used for
instance-lifetime invariants. -/

/-- One public operation of the adapter, or one lifecycle event. The
`Option String` arguments are the caller-supplied strings (possibly absent). -/
inductive Op where
  | previousOp
  | nextOp
  | playOp
  | pauseOp
  | stopOp
  | clearOp
  | getPlayingInfoOp
  | saveVolumeOp (v : Int)
  | setVolumeToSilenceOp
  | setVolumeToNormalOp
  | createPlayListOp (song album artist : Option String)
  | loadPlaylistOp (name : String)
  | readyEvent
  | socketErrorEvent
  | socketEndEvent
deriving DecidableEq

/-- Effect of one operation on the stored fields, together with the MPD
commands it issues under the mock environment `m`. -/
def runOp (op : Op) (m : MpdMock) (s : PlayerState) : PlayerState × List Cmd :=
  match op with
  | .previousOp => (s, (mpcPrevious m).1)
  | .nextOp => (s, (mpcNext m).1)
  | .playOp => (s, (mpcPlay m).1)
  | .pauseOp => (s, (mpcPause m).1)
  | .stopOp => (s, (mpcStop m).1)
  | .clearOp => (s, (mpcClear m).1)
  | .getPlayingInfoOp => (s, (getPlayingInfo m).1)
  | .saveVolumeOp v => saveVolume s v
  | .setVolumeToSilenceOp => setVolumeToSilence s
  | .setVolumeToNormalOp => setVolumeToNormal s
  | .createPlayListOp song album artist => (s, (createPlayListIfPossible song album artist m).1)
  | .loadPlaylistOp name => (s, (loadPlaylistIfPossible name m).1)
  | .readyEvent => __init s
  | .socketErrorEvent => ((socketErrorHandler s).1, [])
  | .socketEndEvent => ((socketEndHandler s).1, [])

/-- A mock on which every remote call succeeds with a neutral value. -/
def mockDefault : MpdMock :=
  { statusRes := Except.ok { state := "play" }
    currentSongRes := Except.ok []
    searchRes := fun _ => Except.ok []
    searchAddRes := fun _ => Except.ok ()
    clearRes := Except.ok ()
    listPlaylistRes := fun _ => Except.ok []
    loadRes := fun _ => Except.ok () }

/-! Theorems. -/

/-- C5: `getPlayingInfo` rejects with `nothingPlaying` exactly when the
status query reports state `stop` or `pause`, and in that case the
current-song query is never issued; for every other state it resolves with
the result of the current-song query. -/
theorem getPlayingInfo_spec (st : String) (songRes : Except String SongInfo) (m0 : MpdMock) :
    getPlayingInfo
        { m0 with statusRes := Except.ok { state := st }
                  currentSongRes := songRes } =
      (if st == "stop" || st == "pause" then
        ([Cmd.status], Except.error "nothingPlaying")
      else
        ([Cmd.status, Cmd.currentSong], songRes)) := by
  by_cases h : (st == "stop" || st == "pause") = true <;>
    simp [getPlayingInfo, __getStatus, __getCurrentSong, mpcStatus, mpcCurrentSong,
      Bind.bind, Mbind, Mthrow, h]

/-- C6: after the `ready` event fires, `__init` has set the readiness flag,
left the stored normal volume untouched, issued a set-volume command with the
stored normal volume, and issued exactly one stop command. -/
theorem init_ready_spec (s : PlayerState) :
    (__init s).1.isReady = true ∧
    (__init s).1.volume = s.volume ∧
    (__init s).2 = [Cmd.setVolume s.volume, Cmd.stop] ∧
    ((__init s).2.count Cmd.stop) = 1 := by
  refine ⟨rfl, rfl, rfl, ?_⟩
  simp [__init, setVolumeToNormal, __setVolume, List.count_cons]

/-- C7: `saveVolume v` stores `v` as the normal volume and issues exactly one
set-volume command with `v`; a subsequent `setVolumeToNormal` issues a
set-volume command with the same `v` and mutates no stored field. -/
theorem saveVolume_spec (s : PlayerState) (v : Int) :
    saveVolume s v = ({ s with volume := v }, [Cmd.setVolume v]) ∧
    setVolumeToNormal (saveVolume s v).1 = ({ s with volume := v }, [Cmd.setVolume v]) :=
  ⟨rfl, rfl⟩

/-- C8: `setVolumeToSilence` issues a set-volume command with the stored
silence level, `setVolumeToNormal` one with the stored normal level, and
neither changes any stored field (the state is returned unchanged). -/
theorem setVolume_levels_spec (s : PlayerState) :
    setVolumeToSilence s = (s, [Cmd.setVolume s.volumeSilence]) ∧
    setVolumeToNormal s = (s, [Cmd.setVolume s.volume]) :=
  ⟨rfl, rfl⟩

/-- C3: `createPlayListIfPossible` first issues a database search whose
criteria pair Title/Album/Artist with the given strings (empty when absent);
on an empty result it rejects with `notFound` having issued no clear and no
search-add; on a non-empty result it issues exactly one clear and then
exactly one search-add with the same criteria. -/
theorem createPlayList_spec (song album artist : Option String)
    (res : List SongInfo) (addRes : Except String Unit) (m0 : MpdMock) :
    searchCriteria song album artist =
      [("Title", song.getD ""), ("Album", album.getD ""), ("Artist", artist.getD "")] ∧
    createPlayListIfPossible song album artist
        { m0 with searchRes := fun _ => Except.ok res
                  clearRes := Except.ok ()
                  searchAddRes := fun _ => addRes } =
      (if res.isEmpty then
        ([Cmd.search (searchCriteria song album artist)], Except.error "notFound")
      else
        ([Cmd.search (searchCriteria song album artist), Cmd.clear,
          Cmd.searchAdd (searchCriteria song album artist)], addRes)) := by
  constructor
  · have hs : ∀ x : Option String, jsStrOrEmpty x = x.getD "" := by
      intro x
      cases x with
      | none => rfl
      | some s => by_cases h : s = "" <;> simp [jsStrOrEmpty, h]
    simp [searchCriteria, hs]
  · cases res <;>
      simp [createPlayListIfPossible, __checkExistance, __createPlayList,
        mpcSearch, mpcSearchAdd, mpcClear, Bind.bind, Mbind, Mthrow]

/-- C4: `loadPlaylistIfPossible name` first lists the playlist file
`toLower name ++ ".m3u"`; a rejected or empty listing makes the whole call
reject with `notFound` (the original error message is discarded) with no
clear and no load issued; a non-empty listing leads to one clear and then one
load of the same file. -/
theorem loadPlaylist_spec (name : String) (listRes : Except String (List String))
    (loadRes : Except String Unit) (m0 : MpdMock) :
    loadPlaylistIfPossible name
        { m0 with listPlaylistRes := fun _ => listRes
                  clearRes := Except.ok ()
                  loadRes := fun _ => loadRes } =
      (match listRes with
       | Except.error _ => ([Cmd.listPlaylist (name.toLower ++ ".m3u")], Except.error "notFound")
       | Except.ok l =>
         if l.isEmpty then
           ([Cmd.listPlaylist (name.toLower ++ ".m3u")], Except.error "notFound")
         else
           ([Cmd.listPlaylist (name.toLower ++ ".m3u"), Cmd.clear,
             Cmd.load (name.toLower ++ ".m3u")], loadRes)) := by
  cases listRes with
  | error e =>
      simp [loadPlaylistIfPossible, __checkExistancePlaylist, __loadSongFromSavedPlaylist,
        mpcListPlaylist, mpcLoad, mpcClear, Bind.bind, Mbind, Mthrow, Mcatch]
  | ok l =>
      cases l <;>
        simp [loadPlaylistIfPossible, __checkExistancePlaylist, __loadSongFromSavedPlaylist,
          mpcListPlaylist, mpcLoad, mpcClear, Bind.bind, Mbind, Mthrow, Mcatch]

/-- C10: an error raised by the final load call of `loadPlaylistIfPossible`
propagates to the caller unmodified, for every error message `e`; the
`notFound` coercion applies only before the load. -/
theorem loadPlaylist_load_error_spec (name : String) (l : List String) (e : String)
    (m0 : MpdMock) (hl : l ≠ []) :
    loadPlaylistIfPossible name
        { m0 with listPlaylistRes := fun _ => Except.ok l
                  clearRes := Except.ok ()
                  loadRes := fun _ => Except.error e } =
      ([Cmd.listPlaylist (name.toLower ++ ".m3u"), Cmd.clear,
        Cmd.load (name.toLower ++ ".m3u")], Except.error e) := by
  cases l with
  | nil => exact absurd rfl hl
  | cons a t =>
      simp [loadPlaylistIfPossible, __checkExistancePlaylist, __loadSongFromSavedPlaylist,
        mpcListPlaylist, mpcLoad, mpcClear, Bind.bind, Mbind, Mthrow, Mcatch]

/-- C10 witness: at playlist name `Mix`, a one-element listing, and a load
that rejects with `boom`, the call rejects with `boom` itself. -/
theorem loadPlaylist_load_error_witness :
    (["x"] : List String) ≠ [] ∧
    loadPlaylistIfPossible "Mix"
        { mockDefault with listPlaylistRes := fun _ => Except.ok ["x"]
                           clearRes := Except.ok ()
                           loadRes := fun _ => Except.error "boom" } =
      ([Cmd.listPlaylist ("Mix".toLower ++ ".m3u"), Cmd.clear,
        Cmd.load ("Mix".toLower ++ ".m3u")], Except.error "boom") :=
  ⟨by simp, loadPlaylist_load_error_spec "Mix" ["x"] "boom" mockDefault (by simp)⟩

/-- An options object whose only present field is `enableRandom := false`. -/
def optsRandomFalse : SnipsPlayerInitOptions :=
  { host := none, port := none, defaultVolume := none, enableRandom := some false }

/-- C1 counterexample: with `enableRandom` present and equal to `false`, the
effective random flag is `true`, not the override, because the constructor
guards every override with a JavaScript truthiness test. -/
theorem mkSnipsPlayer_false_random_ignored :
    optsRandomFalse.enableRandom = some false ∧
    (mkSnipsPlayer optsRandomFalse).enableRandom ≠ false :=
  ⟨rfl, by decide⟩

/-- C1 amended: the effective host, port, and normal volume equal the
override whenever it is present and truthy (non-empty string, non-zero
number), and otherwise the defaults `localhost`, 6600, 80; the random flag is
always `true` (a present `false` override is ignored); readiness starts
`false`. -/
theorem mkSnipsPlayer_effective_settings (o : SnipsPlayerInitOptions) :
    (mkSnipsPlayer o).host =
      (match o.host with
       | some h => if h = "" then "localhost" else h
       | none => "localhost") ∧
    (mkSnipsPlayer o).port =
      (match o.port with
       | some p => if p = 0 then 6600 else p
       | none => 6600) ∧
    (mkSnipsPlayer o).volume =
      (match o.defaultVolume with
       | some v => if v = 0 then 80 else v
       | none => 80) ∧
    (mkSnipsPlayer o).enableRandom = true ∧
    (mkSnipsPlayer o).isReady = false := by
  obtain ⟨h, p, v, r⟩ := o
  cases h <;> cases p <;> cases v <;> cases r <;>
    simp only [mkSnipsPlayer, defaultState] <;>
    (try split_ifs) <;> simp_all

/-- C2 counterexample: the error thrown by the `socket-error` listener is
named `mpdConnectionFaild` (as misspelled in the source), which differs from
the name `mpdConnectionFailed` stated by the claim. -/
theorem socketError_name_counterexample :
    (socketErrorHandler defaultState).2 = "mpdConnectionFaild" ∧
    "mpdConnectionFaild" ≠ "mpdConnectionFailed" :=
  ⟨rfl, by decide⟩

/-- C2 amended: after a socket-error event readiness is false and the error
signaled is named exactly `mpdConnectionFaild`; after a socket-end event
readiness is false and the error is named exactly `mpdConnectionEnd`. -/
theorem socket_handlers_spec (s : PlayerState) :
    (socketErrorHandler s).1.isReady = false ∧
    (socketErrorHandler s).2 = "mpdConnectionFaild" ∧
    (socketEndHandler s).1.isReady = false ∧
    (socketEndHandler s).2 = "mpdConnectionEnd" :=
  ⟨rfl, rfl, rfl, rfl⟩

/-- C9: no operation or lifecycle event ever changes the stored silence
level or the random flag; no operation's outcome (successor state and
command trace) depends on the random flag; and construction always sets the
silence level to 20, so it stays 20 for the instance lifetime. -/
theorem silence_random_invariant (op : Op) (m : MpdMock) (s : PlayerState) (b : Bool)
    (o : SnipsPlayerInitOptions) :
    (runOp op m s).1.volumeSilence = s.volumeSilence ∧
    (runOp op m s).1.enableRandom = s.enableRandom ∧
    runOp op m { s with enableRandom := b } =
      ({ (runOp op m s).1 with enableRandom := b }, (runOp op m s).2) ∧
    (mkSnipsPlayer o).volumeSilence = 20 := by
  refine ⟨?_, ?_, ?_, ?_⟩
  · cases op <;> rfl
  · cases op <;> rfl
  · cases op <;> rfl
  · obtain ⟨h, p, v, r⟩ := o
    cases h <;> cases p <;> cases v <;> cases r <;>
      simp only [mkSnipsPlayer, defaultState] <;>
      (try split_ifs) <;> simp_all

end SnipsActionMusic
